import Mathlib

/-!
# Odyssey UI backend (`src/backend/server.js`)

A shallow embedding of the Express gateway in `server.js`: the network
resolver `getNetwork`, the signer resolver `getAccount`, and the seven route
handlers.  The two libraries the file delegates to (`aptivate-odyssey-sdk`,
`@aptos-labs/ts-sdk`) are not part of the repository; they enter the model as
an environment `World` that answers every external call with either a returned
value or a thrown value.  A handler is a function from the configuration, the
environment and the path parameters to an `Outcome`: the ordered trace of the
resolver and SDK invocations it made, the lines it logged, and the HTTP
response it sent (if it sent one).
-/

deriving instance DecidableEq for Except

namespace Odyssey

/-! ## JavaScript values -/

/-- The JavaScript values that flow through the handlers: configuration
fields parsed from JSON, path parameters, SDK results and thrown values.
`num` stands for a finite number (only whether it is zero matters below),
`bigint` for a BigInt, `obj` for a plain object or array whose contents the
handlers never inspect, `cyclic` for an object that `JSON.stringify` rejects
(a reference cycle, a BigInt inside), and `errorObj` for an `Error` instance
with its `message`. -/
inductive JSVal where
  | undefined
  | null
  | bool (b : Bool)
  | num (n : Int)
  | nan
  | bigint (n : Int)
  | str (s : String)
  | obj (id : Nat)
  | cyclic (id : Nat)
  | errorObj (message : String)
  deriving DecidableEq, Repr

/-- ECMAScript `ToBoolean`, used by `if (x)`, `!x` and `a && b`. -/
def truthy : JSVal → Bool
  | .undefined => false
  | .null => false
  | .bool b => b
  | .num n => n != 0
  | .nan => false
  | .bigint n => n != 0
  | .str s => s != ""
  | .obj _ => true
  | .cyclic _ => true
  | .errorObj _ => true

/-- Whether `JSON.stringify` accepts the value as a property of the body:
it throws a `TypeError` on a BigInt and on a circular structure. -/
def serializable : JSVal → Bool
  | .bigint _ => false
  | .cyclic _ => false
  | _ => true

/-- The property read `error.message` of the `catch` blocks.  Reading a
property of `undefined` or `null` throws a `TypeError`; a primitive has no
`message`; an object of the model other than an `Error` carries none. -/
def getMessage : JSVal → Except JSVal JSVal
  | .undefined => .error (.errorObj "Cannot read properties of undefined (reading message)")
  | .null => .error (.errorObj "Cannot read properties of null (reading message)")
  | .errorObj m => .ok (.str m)
  | _ => .ok .undefined

/-- `String.prototype.toLowerCase`, on the ASCII letters.  Apart from `A`-`Z`,
the full Unicode mapping turns no character into a letter that occurs in
"testnet", "mainnet" or "random", so the comparisons in `getNetwork` come out
the same under both. -/
def toLowerCase (s : String) : String :=
  String.mk (s.data.map Char.toLower)

/-! ## The Aptos SDK objects built by `getNetwork` -/

/-- The members of the SDK enum `Network` that `getNetwork` refers to. -/
inductive Network where
  | DEVNET
  | TESTNET
  | MAINNET
  | RANDOMNET
  deriving DecidableEq, Repr

/-- `new AptosConfig({ network })`. -/
structure AptosConfig where
  network : Network
  deriving DecidableEq, Repr

/-- `new Aptos(aptosConfig)`. -/
structure Aptos where
  config : AptosConfig
  deriving DecidableEq, Repr

/-- `function getNetwork(network)` (lines 178-196).  The argument is whatever
the configuration holds under `network`; `network.toLowerCase()` throws a
`TypeError` unless it is a string. -/
def getNetwork (network : JSVal) : Except JSVal Aptos :=
  match network with
  | .str s =>
    let lowercaseNetwork := toLowerCase s
    let selectedNetwork :=
      if lowercaseNetwork = "testnet" then Network.TESTNET
      else if lowercaseNetwork = "mainnet" then Network.MAINNET
      else if lowercaseNetwork = "random" then Network.RANDOMNET
      else Network.DEVNET
    let APTOS_NETWORK := selectedNetwork
    let aptosConfig := AptosConfig.mk APTOS_NETWORK
    let aptos := Aptos.mk aptosConfig
    .ok aptos
  | .undefined =>
    .error (.errorObj "Cannot read properties of undefined (reading toLowerCase)")
  | .null =>
    .error (.errorObj "Cannot read properties of null (reading toLowerCase)")
  | _ => .error (.errorObj "network.toLowerCase is not a function")

/-! ## Configuration, environment, trace -/

/-- The top-level bindings destructured from `config.json` (lines 17-30).
A field absent from the file is `undefined`. -/
structure Config where
  network : JSVal
  resource_account : JSVal
  private_key : JSVal
  random_trait : JSVal
  reveal_required : JSVal
  base_token_uri : JSVal
  collection_name : JSVal
  description : JSVal
  asset_dir : JSVal
  keyfilePath : JSVal
  deriving DecidableEq, Repr

/-- A method invocation on `odysseyClient`, with its arguments in source
order. -/
inductive SdkCall where
  | getOdyssey (aptos : Aptos) (resource_account : JSVal)
  | getStage (aptos : Aptos) (resource_account : JSVal)
  | getAllowListBalance (aptos : Aptos) (resource_account address : JSVal)
  | getPublicListBalance (aptos : Aptos) (resource_account address : JSVal)
  | uploadNFT (index asset_dir keyfilePath : JSVal)
  | getMintToPayloads (address resource_account mintQty network token_uri : JSVal)
  | updateMetaDataImage (aptos : Aptos) (resource_account creator_account tokenNo
      tokenAddress asset_dir keyfilePath random_trait collection_name description : JSVal)
  deriving DecidableEq, Repr

/-- What a handler did, in order: calls of the two resolvers of the file and
method invocations on `odysseyClient`. -/
inductive Event where
  | getNetwork (network : JSVal)
  | getAccount (privateKey : JSVal)
  | sdk (call : SdkCall)
  deriving DecidableEq, Repr

/-- The external libraries as seen from one request: every `odysseyClient`
invocation and every `Account.fromPrivateKey` either returns a value
(`.ok`) or throws / rejects with one (`.error`). -/
structure World where
  odysseyClient : SdkCall → Except JSVal JSVal
  fromPrivateKey : JSVal → Except JSVal JSVal

/-- `function getAccount(privateKey)` (lines 198-204): the account the Aptos
SDK derives from the key, or whatever the SDK throws on a key it rejects. -/
def getAccount (w : World) (privateKey : JSVal) : Except JSVal JSVal :=
  w.fromPrivateKey privateKey

/-- An HTTP response whose JSON body has one property: the object
`{ field: value }` that was handed to `res.json`. -/
structure Response where
  status : Nat
  field : String
  value : JSVal
  deriving DecidableEq, Repr

/-- The observable result of running a handler once.  `response = none`
means the handler ended without sending anything. -/
structure Outcome where
  trace : List Event
  log : List (String × JSVal)
  response : Option Response
  deriving DecidableEq, Repr

def ERR_INTERNAL_SERVER_ERROR : String := "Internal Server Error"
def ERR_READING_ODYSSEY : String := "Error reading odyssey:"
def ERR_READING_STAGE : String := "Error reading stage:"
def ERR_READING_MINT : String := "Error reading mint txn:"
def ERR_UPDATING_TOKEN : String := "Error updating TOKEN:"

/-- Express `res.status(status).json({ field: value })`: the body is
stringified first, so when `JSON.stringify` throws nothing has been sent and
the `TypeError` propagates to the caller. -/
def sendJson (status : Nat) (field : String) (value : JSVal) : Except JSVal Response :=
  if serializable value then .ok ⟨status, field, value⟩
  else .error (.errorObj "Do not know how to serialize the value")

/-- The `catch (error)` block of the odyssey, stage, mint, update and
get-network handlers: `console.error(label, error.message)` and then
`res.status(500).json({ error: ERR_INTERNAL_SERVER_ERROR })`, whose body is a
string constant.  When reading `error.message` itself throws, the `async`
handler rejects before any response is written. -/
def catchInternal (label : String) (trace : List Event) (error : JSVal) : Outcome :=
  match getMessage error with
  | .ok message =>
    ⟨trace, [(label, message)], some ⟨500, "error", .str ERR_INTERNAL_SERVER_ERROR⟩⟩
  | .error _ => ⟨trace, [], none⟩

/-- The `catch (error)` block of the two balance handlers:
`res.json({ balance: 0 })`, without touching `error`. -/
def catchBalance (trace : List Event) (_error : JSVal) : Outcome :=
  ⟨trace, [], some ⟨200, "balance", .num 0⟩⟩

/-- A `res.json(...)` statement inside a `try`: either the response is sent,
or `catchBlock` runs on what `JSON.stringify` threw. -/
def jsonOrCatch (trace : List Event) (status : Nat) (field : String) (value : JSVal)
    (catchBlock : List Event → JSVal → Outcome) : Outcome :=
  match sendJson status field value with
  | .ok response => ⟨trace, [], some response⟩
  | .error error => catchBlock trace error

/-! ## Route handlers -/

/-- `GET /api/get-odyssey` (lines 38-54). -/
def getOdysseyRoute (w : World) (cfg : Config) : Outcome :=
  match getNetwork cfg.network with
  | .error error => catchInternal ERR_READING_ODYSSEY [.getNetwork cfg.network] error
  | .ok aptos =>
    let trace := [.getNetwork cfg.network, .sdk (.getOdyssey aptos cfg.resource_account)]
    match w.odysseyClient (.getOdyssey aptos cfg.resource_account) with
    | .error error => catchInternal ERR_READING_ODYSSEY trace error
    | .ok odysseyResource =>
      if truthy odysseyResource then
        jsonOrCatch trace 200 "odyssey" odysseyResource (catchInternal ERR_READING_ODYSSEY)
      else
        jsonOrCatch trace 200 "odyssey" .null (catchInternal ERR_READING_ODYSSEY)

/-- `GET /api/get-stage` (lines 56-69). -/
def getStageRoute (w : World) (cfg : Config) : Outcome :=
  match getNetwork cfg.network with
  | .error error => catchInternal ERR_READING_STAGE [.getNetwork cfg.network] error
  | .ok aptos =>
    let trace := [.getNetwork cfg.network, .sdk (.getStage aptos cfg.resource_account)]
    match w.odysseyClient (.getStage aptos cfg.resource_account) with
    | .error error => catchInternal ERR_READING_STAGE trace error
    | .ok odysseyStage =>
      if truthy odysseyStage then
        jsonOrCatch trace 200 "stage" odysseyStage (catchInternal ERR_READING_STAGE)
      else
        jsonOrCatch trace 200 "stage" .null (catchInternal ERR_READING_STAGE)

/-- `GET /api/allowlist-balance/:address` (lines 71-88). -/
def allowlistBalanceRoute (w : World) (cfg : Config) (address : String) : Outcome :=
  match getNetwork cfg.network with
  | .error error => catchBalance [.getNetwork cfg.network] error
  | .ok aptos =>
    let trace := [.getNetwork cfg.network,
      .sdk (.getAllowListBalance aptos cfg.resource_account (.str address))]
    match w.odysseyClient (.getAllowListBalance aptos cfg.resource_account (.str address)) with
    | .error error => catchBalance trace error
    | .ok userBalance =>
      if truthy userBalance then
        jsonOrCatch trace 200 "balance" userBalance catchBalance
      else
        jsonOrCatch trace 200 "balance" (.num 0) catchBalance

/-- `GET /api/publiclist-balance/:address` (lines 90-107). -/
def publiclistBalanceRoute (w : World) (cfg : Config) (address : String) : Outcome :=
  match getNetwork cfg.network with
  | .error error => catchBalance [.getNetwork cfg.network] error
  | .ok aptos =>
    let trace := [.getNetwork cfg.network,
      .sdk (.getPublicListBalance aptos cfg.resource_account (.str address))]
    match w.odysseyClient (.getPublicListBalance aptos cfg.resource_account (.str address)) with
    | .error error => catchBalance trace error
    | .ok userBalance =>
      if truthy userBalance then
        jsonOrCatch trace 200 "balance" userBalance catchBalance
      else
        jsonOrCatch trace 200 "balance" (.num 0) catchBalance

/-- The test `reveal_required && !base_token_uri` of lines 113 and 139. -/
def delayedReveal (cfg : Config) : Bool :=
  truthy cfg.reveal_required && !truthy cfg.base_token_uri

/-- The tail of the mint handler once `token_uri` is known (lines 116-127);
`before` is what the handler did to obtain it. -/
def mintWithTokenUri (w : World) (cfg : Config) (address mintQty : String)
    (before : List Event) (token_uri : JSVal) : Outcome :=
  let trace := before ++ [.sdk (.getMintToPayloads (.str address) cfg.resource_account
    (.str mintQty) cfg.network token_uri)]
  match w.odysseyClient (.getMintToPayloads (.str address) cfg.resource_account
      (.str mintQty) cfg.network token_uri) with
  | .error error => catchInternal ERR_READING_MINT trace error
  | .ok payloads =>
    if truthy payloads then
      jsonOrCatch trace 200 "payloads" payloads (catchInternal ERR_READING_MINT)
    else
      jsonOrCatch trace 200 "payloads" (.str "") (catchInternal ERR_READING_MINT)

/-- `GET /api/get-mint-txn/:address/:mintQty` (lines 109-132). -/
def getMintTxnRoute (w : World) (cfg : Config) (address mintQty : String) : Outcome :=
  if delayedReveal cfg then
    match w.odysseyClient (.uploadNFT (.num 0) cfg.asset_dir cfg.keyfilePath) with
    | .error error =>
      catchInternal ERR_READING_MINT [.sdk (.uploadNFT (.num 0) cfg.asset_dir cfg.keyfilePath)]
        error
    | .ok token_uri =>
      mintWithTokenUri w cfg address mintQty
        [.sdk (.uploadNFT (.num 0) cfg.asset_dir cfg.keyfilePath)] token_uri
  else
    mintWithTokenUri w cfg address mintQty [] cfg.base_token_uri

/-- `GET /api/update-metadata-image/:tokenNo/:tokenAddress` (lines 134-167). -/
def updateMetadataImageRoute (w : World) (cfg : Config) (tokenNo tokenAddress : String) :
    Outcome :=
  if delayedReveal cfg then
    jsonOrCatch [] 200 "simpleTxn" (.str "") (catchInternal ERR_UPDATING_TOKEN)
  else
    match getNetwork cfg.network with
    | .error error => catchInternal ERR_UPDATING_TOKEN [.getNetwork cfg.network] error
    | .ok aptos =>
      let resolved := [Event.getNetwork cfg.network, Event.getAccount cfg.private_key]
      match getAccount w cfg.private_key with
      | .error error => catchInternal ERR_UPDATING_TOKEN resolved error
      | .ok creator_account =>
        let trace := resolved ++ [.sdk (.updateMetaDataImage aptos cfg.resource_account
          creator_account (.str tokenNo) (.str tokenAddress) cfg.asset_dir cfg.keyfilePath
          cfg.random_trait cfg.collection_name cfg.description)]
        match w.odysseyClient (.updateMetaDataImage aptos cfg.resource_account
            creator_account (.str tokenNo) (.str tokenAddress) cfg.asset_dir cfg.keyfilePath
            cfg.random_trait cfg.collection_name cfg.description) with
        | .error error => catchInternal ERR_UPDATING_TOKEN trace error
        | .ok txn =>
          if truthy txn then
            jsonOrCatch trace 200 "simpleTxn" txn (catchInternal ERR_UPDATING_TOKEN)
          else
            jsonOrCatch trace 200 "simpleTxn" (.str "") (catchInternal ERR_UPDATING_TOKEN)

/-- `GET /api/get-network` (lines 169-176). -/
def getNetworkRoute (cfg : Config) : Outcome :=
  jsonOrCatch [] 200 "network" cfg.network (catchInternal "Error retrieving network: ")

/-! ## Reading a trace -/

/-- The `odysseyClient` invocations of an outcome, in order. -/
def Outcome.sdkCalls (o : Outcome) : List SdkCall :=
  o.trace.filterMap fun e => match e with
    | .sdk c => some c
    | _ => none

/-! ## Sample inputs -/

/-- A world in which every `odysseyClient` method resolves to the object
`obj 1` and the key is accepted, giving the account `obj 2`. -/
def worldOk : World := ⟨fun _ => .ok (.obj 1), fun _ => .ok (.obj 2)⟩

/-- A world in which `uploadNFT` resolves to the URI "ar://uploaded" and
every other `odysseyClient` method to the object `obj 1`. -/
def worldUpload : World :=
  ⟨fun c => match c with
    | .uploadNFT _ _ _ => .ok (.str "ar://uploaded")
    | _ => .ok (.obj 1),
   fun _ => .ok (.obj 2)⟩

/-- A world in which every `odysseyClient` method resolves to `undefined`
(no result). -/
def worldNoResult : World := ⟨fun _ => .ok .undefined, fun _ => .ok (.obj 2)⟩

/-- A world in which every `odysseyClient` method resolves to the BigInt
`5n`. -/
def worldBigInt : World := ⟨fun _ => .ok (.bigint 5), fun _ => .ok (.obj 2)⟩

/-- A world in which every `odysseyClient` method rejects with `undefined`. -/
def worldRejectUndefined : World := ⟨fun _ => .error .undefined, fun _ => .ok (.obj 2)⟩

/-- A world in which every `odysseyClient` method rejects with an `Error`. -/
def worldRejectError : World :=
  ⟨fun _ => .error (.errorObj "fetch failed"), fun _ => .error (.errorObj "invalid key")⟩

/-- The configuration `network: "Testnet", reveal_required: true`, with no
`base_token_uri`. -/
def configReveal : Config :=
  ⟨.str "Testnet", .str "0x1", .str "0xkey", .bool false, .bool true, .undefined,
    .str "Odyssey", .str "A collection", .str "./assets", .str "./arweave.json"⟩

/-- The same configuration with `base_token_uri: "ar://xyz"`. -/
def configPreset : Config :=
  ⟨.str "Testnet", .str "0x1", .str "0xkey", .bool false, .bool true, .str "ar://xyz",
    .str "Odyssey", .str "A collection", .str "./assets", .str "./arweave.json"⟩

/-- A configuration whose `network` entry is missing. -/
def configNoNetwork : Config :=
  ⟨.undefined, .str "0x1", .str "0xkey", .bool false, .bool false, .str "ar://xyz",
    .str "Odyssey", .str "A collection", .str "./assets", .str "./arweave.json"⟩

/-! ## The network resolver -/

/-- C1. For every string `s`, `getNetwork` returns a handle (it does not
throw), and the network of that handle is the test network exactly when the
lowercased `s` is "testnet", the main network exactly when it is "mainnet",
the random-test network exactly when it is "random", and the dev network
exactly when it is none of the three; so it is always one of the four.
"devnet" and the empty string select the dev network. -/
theorem getNetwork_selects (s : String) :
    (∃ n : Network, getNetwork (.str s) = .ok ⟨⟨n⟩⟩ ∧
      (n = .TESTNET ↔ toLowerCase s = "testnet") ∧
      (n = .MAINNET ↔ toLowerCase s = "mainnet") ∧
      (n = .RANDOMNET ↔ toLowerCase s = "random") ∧
      (n = .DEVNET ↔ toLowerCase s ≠ "testnet" ∧ toLowerCase s ≠ "mainnet" ∧
        toLowerCase s ≠ "random") ∧
      (n = .DEVNET ∨ n = .TESTNET ∨ n = .MAINNET ∨ n = .RANDOMNET)) ∧
    getNetwork (.str "devnet") = .ok ⟨⟨.DEVNET⟩⟩ ∧
    getNetwork (.str "") = .ok ⟨⟨.DEVNET⟩⟩ := by
  refine ⟨?_, by decide, by decide⟩
  simp only [getNetwork]
  by_cases h1 : toLowerCase s = "testnet"
  · exact ⟨.TESTNET, by simp [h1], by simp [h1]⟩
  · by_cases h2 : toLowerCase s = "mainnet"
    · exact ⟨.MAINNET, by simp [h2], by simp [h2]⟩
    · by_cases h3 : toLowerCase s = "random"
      · exact ⟨.RANDOMNET, by simp [h3], by simp [h3]⟩
      · exact ⟨.DEVNET, by simp [h1, h2, h3], by simp [h1, h2, h3]⟩

/-- C2. Two names with the same lowercase form resolve to the same network
handle. -/
theorem getNetwork_case_insensitive (s t : String) (h : toLowerCase s = toLowerCase t) :
    getNetwork (.str s) = getNetwork (.str t) := by
  simp only [getNetwork, h]

/-- C2, at "MainNet" and "mainnet". -/
theorem getNetwork_case_insensitive_witness :
    toLowerCase "MainNet" = toLowerCase "mainnet" ∧
      getNetwork (.str "MainNet") = getNetwork (.str "mainnet") :=
  ⟨by decide, getNetwork_case_insensitive "MainNet" "mainnet" (by decide)⟩

/-! ## The reveal branch -/

/-- The delayed-reveal test holds exactly when `reveal_required` is truthy and
`base_token_uri` is falsy. -/
theorem delayedReveal_iff (cfg : Config) :
    delayedReveal cfg = true ↔
      truthy cfg.reveal_required = true ∧ truthy cfg.base_token_uri = false := by
  simp [delayedReveal]

/-- A truthy `base_token_uri` rules the delayed-reveal case out. -/
theorem delayedReveal_of_set (cfg : Config) (h : truthy cfg.base_token_uri = true) :
    delayedReveal cfg = false := by
  simp [delayedReveal, h]

/-- A falsy `reveal_required` rules the delayed-reveal case out. -/
theorem delayedReveal_of_not_required (cfg : Config)
    (h : truthy cfg.reveal_required = false) : delayedReveal cfg = false := by
  simp [delayedReveal, h]

/-- The `catch` block adds no resolver or SDK call. -/
theorem catchInternal_trace (label : String) (trace : List Event) (error : JSVal) :
    (catchInternal label trace error).trace = trace := by
  unfold catchInternal
  split <;> rfl

/-- Sending the response, or failing to and running the 500 `catch` block,
adds no resolver or SDK call. -/
theorem jsonOrCatch_internal_trace (trace : List Event) (status : Nat) (field : String)
    (value : JSVal) (label : String) :
    (jsonOrCatch trace status field value (catchInternal label)).trace = trace := by
  unfold jsonOrCatch
  split
  · rfl
  · exact catchInternal_trace _ _ _

/-- Sending the response, or failing to and running the balance `catch` block,
adds no resolver or SDK call. -/
theorem jsonOrCatch_balance_trace (trace : List Event) (status : Nat) (field : String)
    (value : JSVal) :
    (jsonOrCatch trace status field value catchBalance).trace = trace := by
  unfold jsonOrCatch
  split <;> rfl

/-- A body that stringifies is sent as it is. -/
theorem jsonOrCatch_response (trace : List Event) (status : Nat) (field : String)
    (value : JSVal) (catchBlock : List Event → JSVal → Outcome)
    (h : serializable value = true) :
    (jsonOrCatch trace status field value catchBlock).response =
      some ⟨status, field, value⟩ := by
  simp [jsonOrCatch, sendJson, h]

/-- A body that does not stringify ends in the 500 of the `catch` block. -/
theorem jsonOrCatch_internal_response (trace : List Event) (status : Nat) (field : String)
    (value : JSVal) (label : String) (h : serializable value = false) :
    (jsonOrCatch trace status field value (catchInternal label)).response =
      some ⟨500, "error", .str "Internal Server Error"⟩ := by
  simp [jsonOrCatch, sendJson, h, catchInternal, getMessage, ERR_INTERNAL_SERVER_ERROR]

/-- A balance that does not stringify ends in `{ balance: 0 }`. -/
theorem jsonOrCatch_balance_response (trace : List Event) (status : Nat) (field : String)
    (value : JSVal) (h : serializable value = false) :
    (jsonOrCatch trace status field value catchBalance).response =
      some ⟨200, "balance", .num 0⟩ := by
  simp [jsonOrCatch, sendJson, h, catchBalance]

/-- The tail of the mint handler makes the payload-builder call and no
other. -/
theorem mintWithTokenUri_trace (w : World) (cfg : Config) (address mintQty : String)
    (before : List Event) (token_uri : JSVal) :
    (mintWithTokenUri w cfg address mintQty before token_uri).trace =
      before ++ [.sdk (.getMintToPayloads (.str address) cfg.resource_account
        (.str mintQty) cfg.network token_uri)] := by
  unfold mintWithTokenUri
  split
  · exact catchInternal_trace _ _ _
  · split <;> exact jsonOrCatch_internal_trace _ _ _ _ _

/-- C3. The mint handler, for every configuration, environment and request.
With `reveal_required` truthy and `base_token_uri` unset (absent or otherwise
falsy, the test `!base_token_uri`), the first thing it does is
`uploadNFT(0, asset_dir, keyfilePath)`; when the upload returns `uri` the
handler then calls `getMintToPayloads(address, resource_account, mintQty,
network, uri)` and makes no other call, and when the upload throws the builder
is not reached.  With `base_token_uri` set (truthy), whatever `reveal_required`
is, and also in the remaining case (`reveal_required` falsy and
`base_token_uri` unset), the only call is `getMintToPayloads(address,
resource_account, mintQty, network, base_token_uri)`: no upload. -/
theorem getMintTxn_token_uri (w : World) (cfg : Config) (address mintQty : String) :
    (truthy cfg.reveal_required = true → truthy cfg.base_token_uri = false →
      (∀ uri, w.odysseyClient (.uploadNFT (.num 0) cfg.asset_dir cfg.keyfilePath) = .ok uri →
        (getMintTxnRoute w cfg address mintQty).trace =
          [.sdk (.uploadNFT (.num 0) cfg.asset_dir cfg.keyfilePath),
            .sdk (.getMintToPayloads (.str address) cfg.resource_account (.str mintQty)
              cfg.network uri)]) ∧
      (∀ e, w.odysseyClient (.uploadNFT (.num 0) cfg.asset_dir cfg.keyfilePath) = .error e →
        (getMintTxnRoute w cfg address mintQty).trace =
          [.sdk (.uploadNFT (.num 0) cfg.asset_dir cfg.keyfilePath)])) ∧
    (truthy cfg.base_token_uri = true →
      (getMintTxnRoute w cfg address mintQty).trace =
        [.sdk (.getMintToPayloads (.str address) cfg.resource_account (.str mintQty)
          cfg.network cfg.base_token_uri)]) ∧
    (truthy cfg.reveal_required = false → truthy cfg.base_token_uri = false →
      (getMintTxnRoute w cfg address mintQty).trace =
        [.sdk (.getMintToPayloads (.str address) cfg.resource_account (.str mintQty)
          cfg.network cfg.base_token_uri)]) := by
  refine ⟨fun hr hb => ⟨fun uri hu => ?_, fun e he => ?_⟩, fun hb => ?_, fun hr _ => ?_⟩
  · have hd : delayedReveal cfg = true := (delayedReveal_iff cfg).2 ⟨hr, hb⟩
    simp [getMintTxnRoute, hd, hu, mintWithTokenUri_trace]
  · have hd : delayedReveal cfg = true := (delayedReveal_iff cfg).2 ⟨hr, hb⟩
    simp [getMintTxnRoute, hd, he, catchInternal_trace]
  · simp [getMintTxnRoute, delayedReveal_of_set cfg hb, mintWithTokenUri_trace]
  · simp [getMintTxnRoute, delayedReveal_of_not_required cfg hr, mintWithTokenUri_trace]

/-- C3, for `GET /api/get-mint-txn/0xabc/3`.  At `network: "Testnet",
reveal_required: true` without `base_token_uri`, where the upload returns
"ar://uploaded": `uploadNFT(0, "./assets", "./arweave.json")`, then the
builder with "ar://uploaded".  At the same configuration with
`base_token_uri: "ar://xyz"`: the builder with "ar://xyz" alone. -/
theorem getMintTxn_token_uri_witness :
    (getMintTxnRoute worldUpload configReveal "0xabc" "3").trace =
        [.sdk (.uploadNFT (.num 0) (.str "./assets") (.str "./arweave.json")),
          .sdk (.getMintToPayloads (.str "0xabc") (.str "0x1") (.str "3") (.str "Testnet")
            (.str "ar://uploaded"))] ∧
      (getMintTxnRoute worldUpload configPreset "0xabc" "3").trace =
        [.sdk (.getMintToPayloads (.str "0xabc") (.str "0x1") (.str "3") (.str "Testnet")
          (.str "ar://xyz"))] :=
  ⟨((getMintTxn_token_uri worldUpload configReveal "0xabc" "3").1 (by decide) (by decide)).1
      (.str "ar://uploaded") (by rfl),
    (getMintTxn_token_uri worldUpload configPreset "0xabc" "3").2.1 (by decide)⟩

/-- C4. Under `reveal_required` truthy and `base_token_uri` unset, the
metadata-update handler answers 200 with `{ simpleTxn: "" }` and its trace is
empty: neither `getNetwork`, nor `getAccount`, nor any SDK method is
invoked. -/
theorem updateMetadataImage_short_circuit (w : World) (cfg : Config)
    (tokenNo tokenAddress : String) (hr : truthy cfg.reveal_required = true)
    (hb : truthy cfg.base_token_uri = false) :
    (updateMetadataImageRoute w cfg tokenNo tokenAddress).response =
        some ⟨200, "simpleTxn", .str ""⟩ ∧
      (updateMetadataImageRoute w cfg tokenNo tokenAddress).trace = [] := by
  have hd : delayedReveal cfg = true := (delayedReveal_iff cfg).2 ⟨hr, hb⟩
  simp [updateMetadataImageRoute, hd, jsonOrCatch, sendJson, serializable]

/-- C4, at the configuration without `base_token_uri`, in a world where
every SDK call would fail. -/
theorem updateMetadataImage_short_circuit_witness :
    (updateMetadataImageRoute worldRejectError configReveal "5" "0xdef").response =
        some ⟨200, "simpleTxn", .str ""⟩ ∧
      (updateMetadataImageRoute worldRejectError configReveal "5" "0xdef").trace = [] :=
  updateMetadataImage_short_circuit worldRejectError configReveal "5" "0xdef"
    (by decide) (by decide)

/-! ## Failures of the underlying call -/

/-- C5. Both balance handlers, for every configuration, environment and
address: when network resolution throws, and when the SDK balance call throws,
the response is 200 with `{ balance: 0 }`; and in every run whatsoever the
response is a 200 with a `balance` body, so never a 500. -/
theorem balance_routes_swallow_errors (w : World) (cfg : Config) (address : String) :
    ((∀ e, getNetwork cfg.network = .error e →
        (allowlistBalanceRoute w cfg address).response = some ⟨200, "balance", .num 0⟩) ∧
      (∀ aptos e, getNetwork cfg.network = .ok aptos →
        w.odysseyClient (.getAllowListBalance aptos cfg.resource_account (.str address)) =
          .error e →
        (allowlistBalanceRoute w cfg address).response = some ⟨200, "balance", .num 0⟩) ∧
      (∃ v, (allowlistBalanceRoute w cfg address).response = some ⟨200, "balance", v⟩)) ∧
    ((∀ e, getNetwork cfg.network = .error e →
        (publiclistBalanceRoute w cfg address).response = some ⟨200, "balance", .num 0⟩) ∧
      (∀ aptos e, getNetwork cfg.network = .ok aptos →
        w.odysseyClient (.getPublicListBalance aptos cfg.resource_account (.str address)) =
          .error e →
        (publiclistBalanceRoute w cfg address).response = some ⟨200, "balance", .num 0⟩) ∧
      (∃ v, (publiclistBalanceRoute w cfg address).response = some ⟨200, "balance", v⟩)) := by
  have key : ∀ (trace : List Event) (v : JSVal),
      ∃ u, (jsonOrCatch trace 200 "balance" v catchBalance).response =
        some ⟨200, "balance", u⟩ := by
    intro trace v
    cases hs : serializable v
    · exact ⟨_, jsonOrCatch_balance_response _ _ _ _ hs⟩
    · exact ⟨_, jsonOrCatch_response _ _ _ _ _ hs⟩
  refine ⟨⟨fun e h => ?_, fun aptos e h1 h2 => ?_, ?_⟩, ⟨fun e h => ?_, fun aptos e h1 h2 => ?_, ?_⟩⟩
  · simp [allowlistBalanceRoute, h, catchBalance]
  · simp [allowlistBalanceRoute, h1, h2, catchBalance]
  · unfold allowlistBalanceRoute
    split
    · exact ⟨_, rfl⟩
    · dsimp only
      split
      · exact ⟨_, rfl⟩
      · split <;> exact key _ _
  · simp [publiclistBalanceRoute, h, catchBalance]
  · simp [publiclistBalanceRoute, h1, h2, catchBalance]
  · unfold publiclistBalanceRoute
    split
    · exact ⟨_, rfl⟩
    · dsimp only
      split
      · exact ⟨_, rfl⟩
      · split <;> exact key _ _

/-- C5, at a configuration without `network` (resolution throws) and at one
whose SDK balance call rejects. -/
theorem balance_routes_swallow_errors_witness :
    (allowlistBalanceRoute worldOk configNoNetwork "0xabc").response =
        some ⟨200, "balance", .num 0⟩ ∧
      (publiclistBalanceRoute worldRejectUndefined configPreset "0xabc").response =
        some ⟨200, "balance", .num 0⟩ :=
  ⟨(balance_routes_swallow_errors worldOk configNoNetwork "0xabc").1.1 _ (by rfl),
    (balance_routes_swallow_errors worldRejectUndefined configPreset "0xabc").2.2.1
      ⟨⟨.TESTNET⟩⟩ .undefined (by decide) (by rfl)⟩

/-- The `catch` block of the four other handlers answers 500 with
`{ error: "Internal Server Error" }` for every thrown value whose `message`
can be read, that is every value except `undefined` and `null`. -/
theorem catchInternal_response (label : String) (trace : List Event) (error : JSVal)
    (h1 : error ≠ .undefined) (h2 : error ≠ .null) :
    (catchInternal label trace error).response =
      some ⟨500, "error", .str "Internal Server Error"⟩ := by
  cases error <;> simp_all [catchInternal, getMessage, ERR_INTERNAL_SERVER_ERROR]

/-- What `getNetwork` throws is an `Error`, never `undefined` or `null`. -/
theorem getNetwork_error_readable (network e : JSVal) (h : getNetwork network = .error e) :
    e ≠ .undefined ∧ e ≠ .null := by
  cases network <;> simp [getNetwork] at h <;> subst h <;> simp

/-- The odyssey, stage, mint and update handlers answer 500 with
`{ error: "Internal Server Error" }` whenever network resolution throws, and
whenever signer resolution, the upload or the SDK operation throws a value `e`
other than `undefined` and `null`. -/
theorem internal_routes_500_of_message (w : World) (cfg : Config)
    (address mintQty tokenNo tokenAddress : String) (e : JSVal)
    (h1 : e ≠ .undefined) (h2 : e ≠ .null) :
    (∀ e0, getNetwork cfg.network = .error e0 →
      (getOdysseyRoute w cfg).response = some ⟨500, "error", .str "Internal Server Error"⟩ ∧
      (getStageRoute w cfg).response = some ⟨500, "error", .str "Internal Server Error"⟩ ∧
      (delayedReveal cfg = false →
        (updateMetadataImageRoute w cfg tokenNo tokenAddress).response =
          some ⟨500, "error", .str "Internal Server Error"⟩)) ∧
    (∀ aptos, getNetwork cfg.network = .ok aptos →
      (w.odysseyClient (.getOdyssey aptos cfg.resource_account) = .error e →
        (getOdysseyRoute w cfg).response =
          some ⟨500, "error", .str "Internal Server Error"⟩) ∧
      (w.odysseyClient (.getStage aptos cfg.resource_account) = .error e →
        (getStageRoute w cfg).response =
          some ⟨500, "error", .str "Internal Server Error"⟩) ∧
      (delayedReveal cfg = false → getAccount w cfg.private_key = .error e →
        (updateMetadataImageRoute w cfg tokenNo tokenAddress).response =
          some ⟨500, "error", .str "Internal Server Error"⟩) ∧
      (∀ acct, delayedReveal cfg = false → getAccount w cfg.private_key = .ok acct →
        w.odysseyClient (.updateMetaDataImage aptos cfg.resource_account acct (.str tokenNo)
          (.str tokenAddress) cfg.asset_dir cfg.keyfilePath cfg.random_trait
          cfg.collection_name cfg.description) = .error e →
        (updateMetadataImageRoute w cfg tokenNo tokenAddress).response =
          some ⟨500, "error", .str "Internal Server Error"⟩)) ∧
    (delayedReveal cfg = true →
      w.odysseyClient (.uploadNFT (.num 0) cfg.asset_dir cfg.keyfilePath) = .error e →
      (getMintTxnRoute w cfg address mintQty).response =
        some ⟨500, "error", .str "Internal Server Error"⟩) ∧
    (∀ uri, (delayedReveal cfg = true ∧
          w.odysseyClient (.uploadNFT (.num 0) cfg.asset_dir cfg.keyfilePath) = .ok uri) ∨
        (delayedReveal cfg = false ∧ uri = cfg.base_token_uri) →
      w.odysseyClient (.getMintToPayloads (.str address) cfg.resource_account (.str mintQty)
        cfg.network uri) = .error e →
      (getMintTxnRoute w cfg address mintQty).response =
        some ⟨500, "error", .str "Internal Server Error"⟩) := by
  refine ⟨fun e0 h0 => ?_, fun aptos ha => ⟨fun h => ?_, fun h => ?_, fun hd h => ?_,
    fun acct hd hk h => ?_⟩, fun hd h => ?_, fun uri hu h => ?_⟩
  · obtain ⟨g1, g2⟩ := getNetwork_error_readable _ _ h0
    refine ⟨?_, ?_, fun hd => ?_⟩
    · simp [getOdysseyRoute, h0, catchInternal_response _ _ _ g1 g2]
    · simp [getStageRoute, h0, catchInternal_response _ _ _ g1 g2]
    · simp [updateMetadataImageRoute, hd, h0, catchInternal_response _ _ _ g1 g2]
  · simp [getOdysseyRoute, ha, h, catchInternal_response _ _ _ h1 h2]
  · simp [getStageRoute, ha, h, catchInternal_response _ _ _ h1 h2]
  · simp [updateMetadataImageRoute, hd, ha, h, catchInternal_response _ _ _ h1 h2]
  · simp [updateMetadataImageRoute, hd, ha, hk, h, catchInternal_response _ _ _ h1 h2]
  · simp [getMintTxnRoute, hd, h, catchInternal_response _ _ _ h1 h2]
  · rcases hu with ⟨hd, hu⟩ | ⟨hd, rfl⟩
    · simp [getMintTxnRoute, mintWithTokenUri, hd, hu, h, catchInternal_response _ _ _ h1 h2]
    · simp [getMintTxnRoute, mintWithTokenUri, hd, h, catchInternal_response _ _ _ h1 h2]

/-- C6. In a world whose SDK operations reject with `undefined`, none of the
odyssey, stage, mint and update handlers sends the 500 response: reading
`error.message` in the `catch` block throws and the handler ends without a
response. -/
theorem internal_routes_reject_undefined :
    (getOdysseyRoute worldRejectUndefined configPreset).response = none ∧
    (getStageRoute worldRejectUndefined configPreset).response = none ∧
    (getMintTxnRoute worldRejectUndefined configPreset "0xabc" "3").response = none ∧
    (getMintTxnRoute worldRejectUndefined configReveal "0xabc" "3").response = none ∧
    (updateMetadataImageRoute worldRejectUndefined configPreset "5" "0xdef").response = none := by
  decide

/-! ## Results of the underlying call -/

/-- C7, as stated, fails.  When every SDK call returns the truthy BigInt
`5n`, `res.json` throws inside the `try` while stringifying the body: the
odyssey, stage, mint and update handlers answer 500 with
`{ error: "Internal Server Error" }`, and the balance handlers answer
`{ balance: 0 }`, not the result. -/
theorem sdk_result_passthrough_counterexample :
    truthy (.bigint 5) = true ∧
    (getOdysseyRoute worldBigInt configPreset).response =
      some ⟨500, "error", .str "Internal Server Error"⟩ ∧
    (getStageRoute worldBigInt configPreset).response =
      some ⟨500, "error", .str "Internal Server Error"⟩ ∧
    (allowlistBalanceRoute worldBigInt configPreset "0xabc").response =
      some ⟨200, "balance", .num 0⟩ ∧
    (publiclistBalanceRoute worldBigInt configPreset "0xabc").response =
      some ⟨200, "balance", .num 0⟩ ∧
    (getMintTxnRoute worldBigInt configPreset "0xabc" "3").response =
      some ⟨500, "error", .str "Internal Server Error"⟩ ∧
    (updateMetadataImageRoute worldBigInt configPreset "5" "0xdef").response =
      some ⟨500, "error", .str "Internal Server Error"⟩ := by
  decide

/-- C7, amended.  When the SDK call of a handler returns `r` without throwing:
if `r` is truthy and `JSON.stringify` accepts it, the response is 200 with the
field of the endpoint carrying `r` itself; if `r` is falsy, the response is 200
with the placeholder of the endpoint (`null` for `odyssey` and `stage`, `0`
for both `balance`, `""` for `payloads` and `simpleTxn`); if `r` is truthy but
`JSON.stringify` rejects it, the `catch` block of the handler answers: 500
with `{ error: "Internal Server Error" }` on the odyssey, stage, mint and
update handlers, 200 with `{ balance: 0 }` on the balance handlers.  For the
first four handlers and for update the call is reached when network (and
signer) resolution returned; for mint `uri` is the token URI the handler
obtained, from the upload or from the configuration. -/
theorem sdk_result_passthrough (w : World) (cfg : Config)
    (address mintQty tokenNo tokenAddress : String) (r : JSVal) :
    (∀ aptos, getNetwork cfg.network = .ok aptos →
      (w.odysseyClient (.getOdyssey aptos cfg.resource_account) = .ok r →
        (getOdysseyRoute w cfg).response =
          if truthy r then
            if serializable r then some ⟨200, "odyssey", r⟩
            else some ⟨500, "error", .str "Internal Server Error"⟩
          else some ⟨200, "odyssey", .null⟩) ∧
      (w.odysseyClient (.getStage aptos cfg.resource_account) = .ok r →
        (getStageRoute w cfg).response =
          if truthy r then
            if serializable r then some ⟨200, "stage", r⟩
            else some ⟨500, "error", .str "Internal Server Error"⟩
          else some ⟨200, "stage", .null⟩) ∧
      (w.odysseyClient (.getAllowListBalance aptos cfg.resource_account (.str address)) =
          .ok r →
        (allowlistBalanceRoute w cfg address).response =
          if truthy r then
            if serializable r then some ⟨200, "balance", r⟩
            else some ⟨200, "balance", .num 0⟩
          else some ⟨200, "balance", .num 0⟩) ∧
      (w.odysseyClient (.getPublicListBalance aptos cfg.resource_account (.str address)) =
          .ok r →
        (publiclistBalanceRoute w cfg address).response =
          if truthy r then
            if serializable r then some ⟨200, "balance", r⟩
            else some ⟨200, "balance", .num 0⟩
          else some ⟨200, "balance", .num 0⟩) ∧
      (∀ acct, delayedReveal cfg = false → getAccount w cfg.private_key = .ok acct →
        w.odysseyClient (.updateMetaDataImage aptos cfg.resource_account acct (.str tokenNo)
          (.str tokenAddress) cfg.asset_dir cfg.keyfilePath cfg.random_trait
          cfg.collection_name cfg.description) = .ok r →
        (updateMetadataImageRoute w cfg tokenNo tokenAddress).response =
          if truthy r then
            if serializable r then some ⟨200, "simpleTxn", r⟩
            else some ⟨500, "error", .str "Internal Server Error"⟩
          else some ⟨200, "simpleTxn", .str ""⟩)) ∧
    (∀ uri, (delayedReveal cfg = true ∧
          w.odysseyClient (.uploadNFT (.num 0) cfg.asset_dir cfg.keyfilePath) = .ok uri) ∨
        (delayedReveal cfg = false ∧ uri = cfg.base_token_uri) →
      w.odysseyClient (.getMintToPayloads (.str address) cfg.resource_account (.str mintQty)
        cfg.network uri) = .ok r →
      (getMintTxnRoute w cfg address mintQty).response =
        if truthy r then
          if serializable r then some ⟨200, "payloads", r⟩
          else some ⟨500, "error", .str "Internal Server Error"⟩
        else some ⟨200, "payloads", .str ""⟩) := by
  have n1 : serializable .null = true := rfl
  have n2 : serializable (.num 0) = true := rfl
  have n3 : serializable (.str "") = true := rfl
  refine ⟨fun aptos ha => ⟨fun h => ?_, fun h => ?_, fun h => ?_, fun h => ?_,
    fun acct hd hk h => ?_⟩, fun uri hu h => ?_⟩
  · cases ht : truthy r <;> cases hs : serializable r <;>
      simp [getOdysseyRoute, ha, h, ht, hs, jsonOrCatch, sendJson, n1, catchInternal,
        getMessage, ERR_INTERNAL_SERVER_ERROR]
  · cases ht : truthy r <;> cases hs : serializable r <;>
      simp [getStageRoute, ha, h, ht, hs, jsonOrCatch, sendJson, n1, catchInternal,
        getMessage, ERR_INTERNAL_SERVER_ERROR]
  · cases ht : truthy r <;> cases hs : serializable r <;>
      simp [allowlistBalanceRoute, ha, h, ht, hs, jsonOrCatch, sendJson, n2,
        catchBalance]
  · cases ht : truthy r <;> cases hs : serializable r <;>
      simp [publiclistBalanceRoute, ha, h, ht, hs, jsonOrCatch, sendJson, n2,
        catchBalance]
  · cases ht : truthy r <;> cases hs : serializable r <;>
      simp [updateMetadataImageRoute, hd, ha, hk, h, ht, hs, jsonOrCatch, sendJson,
        n3, catchInternal, getMessage, ERR_INTERNAL_SERVER_ERROR]
  · rcases hu with ⟨hd, hu⟩ | ⟨hd, rfl⟩
    · cases ht : truthy r <;> cases hs : serializable r <;>
        simp [getMintTxnRoute, mintWithTokenUri, hd, hu, h, ht, hs, jsonOrCatch, sendJson,
          n3, catchInternal, getMessage, ERR_INTERNAL_SERVER_ERROR]
    · cases ht : truthy r <;> cases hs : serializable r <;>
        simp [getMintTxnRoute, mintWithTokenUri, hd, h, ht, hs, jsonOrCatch, sendJson,
          n3, catchInternal, getMessage, ERR_INTERNAL_SERVER_ERROR]

/-- C7 amended, at the configuration with `base_token_uri: "ar://xyz"`: in a
world whose SDK calls all return the object `obj 1` the stage handler answers
`{ stage: obj 1 }` and the mint handler `{ payloads: obj 1 }`; in a world
whose SDK calls return nothing the allowlist handler answers `{ balance: 0 }`
and the update handler `{ simpleTxn: "" }`. -/
theorem sdk_result_passthrough_witness :
    (getStageRoute worldOk configPreset).response = some ⟨200, "stage", .obj 1⟩ ∧
      (getMintTxnRoute worldOk configPreset "0xabc" "3").response =
        some ⟨200, "payloads", .obj 1⟩ ∧
      (allowlistBalanceRoute worldNoResult configPreset "0xabc").response =
        some ⟨200, "balance", .num 0⟩ ∧
      (updateMetadataImageRoute worldNoResult configPreset "5" "0xdef").response =
        some ⟨200, "simpleTxn", .str ""⟩ :=
  ⟨((sdk_result_passthrough worldOk configPreset "0xabc" "3" "5" "0xdef" (.obj 1)).1
      ⟨⟨.TESTNET⟩⟩ (by decide)).2.1 (by rfl),
    (sdk_result_passthrough worldOk configPreset "0xabc" "3" "5" "0xdef" (.obj 1)).2
      (.str "ar://xyz") (Or.inr ⟨by decide, by rfl⟩) (by rfl),
    ((sdk_result_passthrough worldNoResult configPreset "0xabc" "3" "5" "0xdef" .undefined).1
      ⟨⟨.TESTNET⟩⟩ (by decide)).2.2.1 (by rfl),
    ((sdk_result_passthrough worldNoResult configPreset "0xabc" "3" "5" "0xdef" .undefined).1
      ⟨⟨.TESTNET⟩⟩ (by decide)).2.2.2.2 (.obj 2) (by decide) (by rfl) (by rfl)⟩

/-! ## The full metadata-update path -/

/-- Outside the delayed-reveal case the metadata-update handler starts with
`getNetwork` on the configured network. -/
theorem updateMetadataImageRoute_head (w : World) (cfg : Config)
    (tokenNo tokenAddress : String) (hd : delayedReveal cfg = false) :
    (updateMetadataImageRoute w cfg tokenNo tokenAddress).trace.head? =
      some (.getNetwork cfg.network) := by
  simp only [updateMetadataImageRoute, hd]
  cases hn : getNetwork cfg.network with
  | error e => simp [catchInternal_trace]
  | ok aptos =>
    cases hk : getAccount w cfg.private_key with
    | error e => simp [catchInternal_trace]
    | ok acct =>
      cases hc : w.odysseyClient (.updateMetaDataImage aptos cfg.resource_account acct
        (.str tokenNo) (.str tokenAddress) cfg.asset_dir cfg.keyfilePath cfg.random_trait
        cfg.collection_name cfg.description) with
      | error e => simp [hc, catchInternal_trace]
      | ok txn =>
        by_cases ht : truthy txn = true <;> simp [hc, ht, jsonOrCatch_internal_trace]

/-- Trace of the metadata-update handler on the full path, once network and
signer are resolved. -/
theorem updateMetadataImageRoute_trace (w : World) (cfg : Config)
    (tokenNo tokenAddress : String) (aptos : Aptos) (acct : JSVal)
    (hd : delayedReveal cfg = false) (ha : getNetwork cfg.network = .ok aptos)
    (hk : getAccount w cfg.private_key = .ok acct) :
    (updateMetadataImageRoute w cfg tokenNo tokenAddress).trace =
      [.getNetwork cfg.network, .getAccount cfg.private_key,
        .sdk (.updateMetaDataImage aptos cfg.resource_account acct (.str tokenNo)
          (.str tokenAddress) cfg.asset_dir cfg.keyfilePath cfg.random_trait
          cfg.collection_name cfg.description)] := by
  simp only [updateMetadataImageRoute, hd, ha, hk]
  cases hc : w.odysseyClient (.updateMetaDataImage aptos cfg.resource_account acct
    (.str tokenNo) (.str tokenAddress) cfg.asset_dir cfg.keyfilePath cfg.random_trait
    cfg.collection_name cfg.description) with
  | error e => simp [hc, catchInternal_trace]
  | ok txn => by_cases ht : truthy txn = true <;> simp [hc, ht, jsonOrCatch_internal_trace]

/-- C8, as stated, fails.  The configuration without a `network` entry and
with `base_token_uri: "ar://xyz"` is not in the delayed-reveal case, yet the
metadata-update handler stops at network resolution: its trace is the single
`getNetwork` call, it resolves no signer, makes no SDK call, and answers 500
with `{ error: "Internal Server Error" }`, in a world where every SDK call
would succeed. -/
theorem updateMetadataImage_full_path_counterexample :
    ¬ (truthy configNoNetwork.reveal_required = true ∧
        truthy configNoNetwork.base_token_uri = false) ∧
    (updateMetadataImageRoute worldOk configNoNetwork "5" "0xdef").trace =
      [.getNetwork .undefined] ∧
    (updateMetadataImageRoute worldOk configNoNetwork "5" "0xdef").sdkCalls = [] ∧
    (updateMetadataImageRoute worldOk configNoNetwork "5" "0xdef").response =
      some ⟨500, "error", .str "Internal Server Error"⟩ := by
  decide

/-- C8, amended.  Under every configuration that is not in the delayed-reveal
case (not both `reveal_required` truthy and `base_token_uri` unset), the
metadata-update handler enters the full path: its first step is always
`getNetwork` on the configured network, so its trace is never the empty trace
of the short-circuit.  When `getNetwork` throws, nothing else is called and
the response is 500 with `{ error: "Internal Server Error" }`.  When it
returns the handle `aptos`, the next step is `getAccount` on the configured
private key; when that throws, no SDK call is made; when it returns `acct`,
the trace is exactly the two resolutions followed by one
`updateMetaDataImage(aptos, resource_account, acct, tokenNo, tokenAddress,
asset_dir, keyfilePath, random_trait, collection_name, description)`; and when
that call returns a truthy transaction `txn` that `JSON.stringify` accepts,
the response is 200 with `{ simpleTxn: txn }`. -/
theorem updateMetadataImage_full_path (w : World) (cfg : Config)
    (tokenNo tokenAddress : String)
    (h : ¬ (truthy cfg.reveal_required = true ∧ truthy cfg.base_token_uri = false)) :
    (updateMetadataImageRoute w cfg tokenNo tokenAddress).trace.head? =
        some (.getNetwork cfg.network) ∧
      (updateMetadataImageRoute w cfg tokenNo tokenAddress).trace ≠ [] ∧
      (∀ e, getNetwork cfg.network = .error e →
        (updateMetadataImageRoute w cfg tokenNo tokenAddress).trace =
            [.getNetwork cfg.network] ∧
          (updateMetadataImageRoute w cfg tokenNo tokenAddress).response =
            some ⟨500, "error", .str "Internal Server Error"⟩) ∧
      ∀ aptos, getNetwork cfg.network = .ok aptos →
        (∀ e, getAccount w cfg.private_key = .error e →
          (updateMetadataImageRoute w cfg tokenNo tokenAddress).trace =
            [.getNetwork cfg.network, .getAccount cfg.private_key]) ∧
        ∀ acct, getAccount w cfg.private_key = .ok acct →
          (updateMetadataImageRoute w cfg tokenNo tokenAddress).trace =
              [.getNetwork cfg.network, .getAccount cfg.private_key,
                .sdk (.updateMetaDataImage aptos cfg.resource_account acct (.str tokenNo)
                  (.str tokenAddress) cfg.asset_dir cfg.keyfilePath cfg.random_trait
                  cfg.collection_name cfg.description)] ∧
            ∀ txn, w.odysseyClient (.updateMetaDataImage aptos cfg.resource_account acct
                (.str tokenNo) (.str tokenAddress) cfg.asset_dir cfg.keyfilePath
                cfg.random_trait cfg.collection_name cfg.description) = .ok txn →
              truthy txn = true → serializable txn = true →
              (updateMetadataImageRoute w cfg tokenNo tokenAddress).response =
                some ⟨200, "simpleTxn", txn⟩ := by
  have hd : delayedReveal cfg = false := by
    cases hx : delayedReveal cfg
    · rfl
    · exact absurd ((delayedReveal_iff cfg).1 hx) h
  have hfirst := updateMetadataImageRoute_head w cfg tokenNo tokenAddress hd
  refine ⟨hfirst, fun h0 => by simp [h0] at hfirst, fun e he => ⟨?_, ?_⟩,
    fun aptos hn => ⟨fun e hk => ?_, fun acct hk => ⟨?_, fun txn hc ht hs => ?_⟩⟩⟩
  · simp [updateMetadataImageRoute, hd, he, catchInternal_trace]
  · obtain ⟨g1, g2⟩ := getNetwork_error_readable _ _ he
    simp [updateMetadataImageRoute, hd, he, catchInternal_response _ _ _ g1 g2]
  · simp [updateMetadataImageRoute, hd, hn, hk, catchInternal_trace]
  · exact updateMetadataImageRoute_trace w cfg tokenNo tokenAddress aptos acct hd hn hk
  · simp [updateMetadataImageRoute, hd, hn, hk, hc, ht, jsonOrCatch, sendJson, hs]

/-- C8 amended, at `base_token_uri: "ar://xyz"` for
`GET /api/update-metadata-image/5/0xdef`: network, signer, one update call
with the handle, the signer and the request and configuration fields, and
`{ simpleTxn: obj 1 }`. -/
theorem updateMetadataImage_full_path_witness :
    (updateMetadataImageRoute worldOk configPreset "5" "0xdef").trace =
        [.getNetwork (.str "Testnet"), .getAccount (.str "0xkey"),
          .sdk (.updateMetaDataImage ⟨⟨.TESTNET⟩⟩ (.str "0x1") (.obj 2) (.str "5")
            (.str "0xdef") (.str "./assets") (.str "./arweave.json") (.bool false)
            (.str "Odyssey") (.str "A collection"))] ∧
      (updateMetadataImageRoute worldOk configPreset "5" "0xdef").response =
        some ⟨200, "simpleTxn", .obj 1⟩ :=
  have h := ((updateMetadataImage_full_path worldOk configPreset "5" "0xdef"
    (by decide)).2.2.2 ⟨⟨.TESTNET⟩⟩ (by decide)).2 (.obj 2) (by rfl)
  ⟨h.1, h.2 (.obj 1) (by rfl) (by decide) (by decide)⟩

/-! ## The configured network name -/

/-- C10. For every configured network string `n`, `GET /api/get-network`
answers 200 with `{ network: n }`, the configuration string itself, and calls
neither resolver nor the SDK. -/
theorem getNetworkRoute_echo (cfg : Config) (n : String) (h : cfg.network = .str n) :
    (getNetworkRoute cfg).response = some ⟨200, "network", .str n⟩ ∧
      (getNetworkRoute cfg).trace = [] := by
  simp [getNetworkRoute, h, jsonOrCatch, sendJson, serializable]

/-- C10, at `network: "Testnet"`: the body carries "Testnet", not its
lowercase form. -/
theorem getNetworkRoute_echo_witness :
    (getNetworkRoute configReveal).response = some ⟨200, "network", .str "Testnet"⟩ ∧
      (getNetworkRoute configReveal).trace = [] :=
  getNetworkRoute_echo configReveal "Testnet" (by rfl)

/-! ## How many SDK calls a handler makes -/

/-- Trace of the odyssey handler once the network is resolved. -/
theorem getOdysseyRoute_trace (w : World) (cfg : Config) (aptos : Aptos)
    (ha : getNetwork cfg.network = .ok aptos) :
    (getOdysseyRoute w cfg).trace =
      [.getNetwork cfg.network, .sdk (.getOdyssey aptos cfg.resource_account)] := by
  simp only [getOdysseyRoute, ha]
  cases hc : w.odysseyClient (.getOdyssey aptos cfg.resource_account) with
  | error e => simp [catchInternal_trace]
  | ok r => by_cases ht : truthy r = true <;> simp [ht, jsonOrCatch_internal_trace]

/-- Trace of the stage handler once the network is resolved. -/
theorem getStageRoute_trace (w : World) (cfg : Config) (aptos : Aptos)
    (ha : getNetwork cfg.network = .ok aptos) :
    (getStageRoute w cfg).trace =
      [.getNetwork cfg.network, .sdk (.getStage aptos cfg.resource_account)] := by
  simp only [getStageRoute, ha]
  cases hc : w.odysseyClient (.getStage aptos cfg.resource_account) with
  | error e => simp [catchInternal_trace]
  | ok r => by_cases ht : truthy r = true <;> simp [ht, jsonOrCatch_internal_trace]

/-- Trace of the allowlist-balance handler once the network is resolved. -/
theorem allowlistBalanceRoute_trace (w : World) (cfg : Config) (address : String)
    (aptos : Aptos) (ha : getNetwork cfg.network = .ok aptos) :
    (allowlistBalanceRoute w cfg address).trace =
      [.getNetwork cfg.network,
        .sdk (.getAllowListBalance aptos cfg.resource_account (.str address))] := by
  simp only [allowlistBalanceRoute, ha]
  cases hc : w.odysseyClient
      (.getAllowListBalance aptos cfg.resource_account (.str address)) with
  | error e => simp [catchBalance]
  | ok r => by_cases ht : truthy r = true <;> simp [ht, jsonOrCatch_balance_trace]

/-- Trace of the public-list-balance handler once the network is resolved. -/
theorem publiclistBalanceRoute_trace (w : World) (cfg : Config) (address : String)
    (aptos : Aptos) (ha : getNetwork cfg.network = .ok aptos) :
    (publiclistBalanceRoute w cfg address).trace =
      [.getNetwork cfg.network,
        .sdk (.getPublicListBalance aptos cfg.resource_account (.str address))] := by
  simp only [publiclistBalanceRoute, ha]
  cases hc : w.odysseyClient
      (.getPublicListBalance aptos cfg.resource_account (.str address)) with
  | error e => simp [catchBalance]
  | ok r => by_cases ht : truthy r = true <;> simp [ht, jsonOrCatch_balance_trace]

/-- C9, as stated, fails.  Under `reveal_required: true` without
`base_token_uri`, in a world where every SDK call succeeds, the mint handler
makes two SDK calls (`uploadNFT`, then `getMintToPayloads`) and the
metadata-update handler makes none; the get-network handler never makes
one. -/
theorem exactly_one_sdk_call_counterexample :
    (getMintTxnRoute worldOk configReveal "0xabc" "3").sdkCalls.length = 2 ∧
    (updateMetadataImageRoute worldOk configReveal "5" "0xdef").sdkCalls.length = 0 ∧
    (getNetworkRoute configReveal).sdkCalls.length = 0 := by
  decide

/-- C9, amended.  The odyssey, stage and two balance handlers make exactly one
SDK call, on the resolved handle with `resource_account` (and the address),
when network resolution returns, and none when it throws.  The mint handler
makes exactly one, `getMintToPayloads(address, resource_account, mintQty,
network, base_token_uri)`, outside the delayed-reveal case; in the
delayed-reveal case it makes `uploadNFT(0, asset_dir, keyfilePath)` first and,
when that returns `uri`, `getMintToPayloads(..., uri)` second, and only the
upload when the upload throws.  The metadata-update handler makes exactly one,
`updateMetaDataImage`, outside the delayed-reveal case when network and signer
resolution return, and none when one of them throws or in the delayed-reveal
case.  The get-network handler makes none. -/
theorem sdk_calls_per_route (w : World) (cfg : Config)
    (address mintQty tokenNo tokenAddress : String) :
    (∀ aptos, getNetwork cfg.network = .ok aptos →
      (getOdysseyRoute w cfg).sdkCalls = [.getOdyssey aptos cfg.resource_account] ∧
      (getStageRoute w cfg).sdkCalls = [.getStage aptos cfg.resource_account] ∧
      (allowlistBalanceRoute w cfg address).sdkCalls =
        [.getAllowListBalance aptos cfg.resource_account (.str address)] ∧
      (publiclistBalanceRoute w cfg address).sdkCalls =
        [.getPublicListBalance aptos cfg.resource_account (.str address)] ∧
      (delayedReveal cfg = false →
        (∀ acct, getAccount w cfg.private_key = .ok acct →
          (updateMetadataImageRoute w cfg tokenNo tokenAddress).sdkCalls =
            [.updateMetaDataImage aptos cfg.resource_account acct (.str tokenNo)
              (.str tokenAddress) cfg.asset_dir cfg.keyfilePath cfg.random_trait
              cfg.collection_name cfg.description]) ∧
        (∀ e, getAccount w cfg.private_key = .error e →
          (updateMetadataImageRoute w cfg tokenNo tokenAddress).sdkCalls = []))) ∧
    (∀ e, getNetwork cfg.network = .error e →
      (getOdysseyRoute w cfg).sdkCalls = [] ∧
      (getStageRoute w cfg).sdkCalls = [] ∧
      (allowlistBalanceRoute w cfg address).sdkCalls = [] ∧
      (publiclistBalanceRoute w cfg address).sdkCalls = [] ∧
      (updateMetadataImageRoute w cfg tokenNo tokenAddress).sdkCalls = []) ∧
    (delayedReveal cfg = false →
      (getMintTxnRoute w cfg address mintQty).sdkCalls =
        [.getMintToPayloads (.str address) cfg.resource_account (.str mintQty) cfg.network
          cfg.base_token_uri]) ∧
    (delayedReveal cfg = true →
      (∀ uri, w.odysseyClient (.uploadNFT (.num 0) cfg.asset_dir cfg.keyfilePath) = .ok uri →
        (getMintTxnRoute w cfg address mintQty).sdkCalls =
          [.uploadNFT (.num 0) cfg.asset_dir cfg.keyfilePath,
            .getMintToPayloads (.str address) cfg.resource_account (.str mintQty) cfg.network
              uri]) ∧
      (∀ e, w.odysseyClient (.uploadNFT (.num 0) cfg.asset_dir cfg.keyfilePath) = .error e →
        (getMintTxnRoute w cfg address mintQty).sdkCalls =
          [.uploadNFT (.num 0) cfg.asset_dir cfg.keyfilePath]) ∧
      (updateMetadataImageRoute w cfg tokenNo tokenAddress).sdkCalls = []) ∧
    (getNetworkRoute cfg).sdkCalls = [] := by
  refine ⟨fun aptos ha => ⟨?_, ?_, ?_, ?_, fun hd => ⟨fun acct hk => ?_, fun e hk => ?_⟩⟩,
    fun e he => ⟨?_, ?_, ?_, ?_, ?_⟩, fun hd => ?_,
    fun hd => ⟨fun uri hu => ?_, fun e he => ?_, ?_⟩, ?_⟩
  · simp [Outcome.sdkCalls, getOdysseyRoute_trace w cfg aptos ha]
  · simp [Outcome.sdkCalls, getStageRoute_trace w cfg aptos ha]
  · simp [Outcome.sdkCalls, allowlistBalanceRoute_trace w cfg address aptos ha]
  · simp [Outcome.sdkCalls, publiclistBalanceRoute_trace w cfg address aptos ha]
  · simp [Outcome.sdkCalls, updateMetadataImageRoute_trace w cfg tokenNo tokenAddress aptos acct
      hd ha hk]
  · simp [Outcome.sdkCalls, updateMetadataImageRoute, hd, ha, hk, catchInternal_trace]
  · simp [Outcome.sdkCalls, getOdysseyRoute, he, catchInternal_trace]
  · simp [Outcome.sdkCalls, getStageRoute, he, catchInternal_trace]
  · simp [Outcome.sdkCalls, allowlistBalanceRoute, he, catchBalance]
  · simp [Outcome.sdkCalls, publiclistBalanceRoute, he, catchBalance]
  · cases hd : delayedReveal cfg <;>
      simp [Outcome.sdkCalls, updateMetadataImageRoute, hd, he, catchInternal_trace,
        jsonOrCatch_internal_trace]
  · simp [Outcome.sdkCalls, getMintTxnRoute, hd, mintWithTokenUri_trace]
  · simp [Outcome.sdkCalls, getMintTxnRoute, hd, hu, mintWithTokenUri_trace]
  · simp [Outcome.sdkCalls, getMintTxnRoute, hd, he, catchInternal_trace]
  · simp [Outcome.sdkCalls, updateMetadataImageRoute, hd, jsonOrCatch_internal_trace]
  · simp [Outcome.sdkCalls, getNetworkRoute, jsonOrCatch_internal_trace]

/-- C9 amended, at the two sample configurations: two SDK calls for mint
under delayed reveal, one for the metadata update with a preset URI. -/
theorem sdk_calls_per_route_witness :
    (getMintTxnRoute worldOk configReveal "0xabc" "3").sdkCalls =
        [.uploadNFT (.num 0) (.str "./assets") (.str "./arweave.json"),
          .getMintToPayloads (.str "0xabc") (.str "0x1") (.str "3") (.str "Testnet")
            (.obj 1)] ∧
      (updateMetadataImageRoute worldOk configPreset "5" "0xdef").sdkCalls =
        [.updateMetaDataImage ⟨⟨.TESTNET⟩⟩ (.str "0x1") (.obj 2) (.str "5") (.str "0xdef")
          (.str "./assets") (.str "./arweave.json") (.bool false) (.str "Odyssey")
          (.str "A collection")] :=
  ⟨((sdk_calls_per_route worldOk configReveal "0xabc" "3" "5" "0xdef").2.2.2.1
      (by decide)).1 (.obj 1) (by rfl),
    (((sdk_calls_per_route worldOk configPreset "0xabc" "3" "5" "0xdef").1
      ⟨⟨.TESTNET⟩⟩ (by decide)).2.2.2.2 (by decide)).1 (.obj 2) (by rfl)⟩

end Odyssey
